import Mathlib

/-!
Shallow embedding of the mathematical-function analyzer
(`analizador.py`, `graficos.py`): the analysis pipeline of
`AnalizadorMatematico` (domain restrictions, range summary, axis
intersections, point evaluation, expression normalization) and the
number formatter of `GeneradorGraficos`.

Modelling conventions:
* SymPy is the external CAS (spec section 6).  Results of CAS calls
  (`sympify`, `solve`, `as_numer_denom`, `find`, `degree`) are passed to
  the embedded routines as explicit data, mirroring exactly how the
  Python code consumes them; the control flow around them is translated
  line by line from the source.
* Python floats are modelled as exact rationals (`ℚ`); `round(f, d)`
  is modelled as round-half-even at `d` decimal places.
* A Python function that can raise is modelled with `Option`;
  `none`/a dedicated constructor marks the raising path.
* Expressions are an algebraic term tree (`Expresion`); numeric
  evaluation (`sp.N` after substitution) is modelled by `evalQ`, which
  evaluates exactly over ℚ: values that are not exact rationals
  (logarithms of arguments other than 1, non-integer powers of positive
  bases) are reported as `EvalRes.failed`, and symbolic leftovers /
  complex values as `EvalRes.nonReal`.
-/

/-- Algebraic expression tree over rational constants and named
variables, covering the constructs the analyzed functions use. -/
inductive Expresion where
  | const (q : ℚ)
  | var (s : String)
  | add (a b : Expresion)
  | sub (a b : Expresion)
  | mul (a b : Expresion)
  | div (a b : Expresion)
  | powE (a b : Expresion)
  | log (a : Expresion)
deriving DecidableEq

/-- Relational operators of SymPy `Relational` objects, as dispatched on
`rel.rel_op` in `_eval_relational` (analizador.py lines 50-61). -/
inductive RelOp where
  | eq
  | ne
  | gt
  | ge
  | lt
  | le
deriving DecidableEq

/-- A SymPy relational restriction `lhs (op) rhs`, as produced by
`calcular_dominio` (`sp.Ne`, `sp.Gt`, `sp.Ge`). -/
structure Restriccion where
  lhs : Expresion
  op : RelOp
  rhs : Expresion
deriving DecidableEq

/-- Outcome of numerically evaluating an expression at a rational point
(modelling `sp.N(expr.subs(x, v))`): an exact rational real value, a
non-real / symbolic-residue value (`is_real` is `False` or `None`), or a
value outside the exact-rational fragment of this embedding. -/
inductive EvalRes where
  | real (q : ℚ)
  | nonReal
  | failed
deriving DecidableEq

/-- Combine two evaluation results with a binary operation; an
exception dominates, then non-realness, mirroring SymPy arithmetic. -/
def evalBin (f : ℚ → ℚ → EvalRes) : EvalRes → EvalRes → EvalRes
  | EvalRes.failed, _ => EvalRes.failed
  | _, EvalRes.failed => EvalRes.failed
  | EvalRes.nonReal, _ => EvalRes.nonReal
  | _, EvalRes.nonReal => EvalRes.nonReal
  | EvalRes.real a, EvalRes.real b => f a b

/-- Numeric evaluation of an expression after substituting `v` for the
variable `x` (models `sp.N(e.subs(x, v))`).  A foreign variable stays
symbolic, hence is not real (`is_real` is `None` in SymPy, which the
callers treat the same as `False`); division by zero gives SymPy `zoo`
(not real); a negative base under a non-integer power is complex;
`log` of a non-positive argument is complex/`zoo`. -/
def evalQ : Expresion → ℚ → EvalRes
  | Expresion.const q, _ => EvalRes.real q
  | Expresion.var s, v => if s = "x" then EvalRes.real v else EvalRes.nonReal
  | Expresion.add a b, v => evalBin (fun x y => EvalRes.real (x + y)) (evalQ a v) (evalQ b v)
  | Expresion.sub a b, v => evalBin (fun x y => EvalRes.real (x - y)) (evalQ a v) (evalQ b v)
  | Expresion.mul a b, v => evalBin (fun x y => EvalRes.real (x * y)) (evalQ a v) (evalQ b v)
  | Expresion.div a b, v =>
      evalBin (fun x y => if y = 0 then EvalRes.nonReal else EvalRes.real (x / y))
        (evalQ a v) (evalQ b v)
  | Expresion.powE a b, v =>
      evalBin (fun base ex =>
        if ex.den = 1 then
          if 0 ≤ ex.num then EvalRes.real (base ^ ex.num.toNat)
          else if base = 0 then EvalRes.nonReal
          else EvalRes.real (base ^ ex.num)
        else if base < 0 then EvalRes.nonReal
        else if base = 0 then (if 0 < ex then EvalRes.real 0 else EvalRes.nonReal)
        else EvalRes.failed)
        (evalQ a v) (evalQ b v)
  | Expresion.log a, v =>
      match evalQ a v with
      | EvalRes.real q =>
          if q ≤ 0 then EvalRes.nonReal
          else if q = 1 then EvalRes.real 0
          else EvalRes.failed
      | r => r

/-- Round-half-even to an integer, modelling Python `round` ties. -/
def roundHalfEven (x : ℚ) : ℤ :=
  let n := ⌊x⌋
  let r := x - (n : ℚ)
  if r < 1/2 then n
  else if 1/2 < r then n + 1
  else if n % 2 = 0 then n else n + 1

/-- Python `round(f, decimals)` on a float modelled as a rational. -/
def roundTo (q : ℚ) (decimals : Nat) : ℚ :=
  (roundHalfEven (q * (10 : ℚ) ^ decimals) : ℚ) / (10 : ℚ) ^ decimals

/-- Result of Python `float(num)`: a finite value, an infinity, a NaN,
or a raised exception (symbolic residue etc.). -/
inductive FloatRes where
  | fin (q : ℚ)
  | inf
  | nan
  | err
deriving DecidableEq

/-- The value produced by `sp.N(sym_val, 15)`: its `is_real` attribute
(`some true` / `some false` / `none` for the three-valued logic of SymPy) and
the outcome of converting it with `float(...)`. -/
structure SymVal where
  isReal : Option Bool
  toFloat : FloatRes
deriving DecidableEq

/-- Outcome of the `sp.N(sym_val, 15)` call itself: either it raises or
it yields a value. -/
inductive NOutcome where
  | raises
  | val (v : SymVal)
deriving DecidableEq

/-- `AnalizadorMatematico._to_safe_float` (analizador.py lines 19-33):
evaluate numerically at 15 significant digits, reject non-real values
(`is_real is False`), convert to float, reject non-finite floats, round
to `decimals` places; any raised exception becomes a conversion-error
message.  The Spanish messages are the f-string prefixes of the source
(interpolated values omitted). -/
def to_safe_float (x : NOutcome) (decimals : Nat) : Option ℚ × Option String :=
  match x with
  | NOutcome.raises => (none, some "No se pudo convertir a float")
  | NOutcome.val v =>
      if v.isReal = some false then (none, some "El valor es complejo")
      else
        match v.toFloat with
        | FloatRes.fin q => (some (roundTo q decimals), none)
        | FloatRes.inf => (none, some "El valor no es finito")
        | FloatRes.nan => (none, some "El valor no es finito")
        | FloatRes.err => (none, some "No se pudo convertir a float")

/-- Adapter feeding an `evalQ` outcome into `_to_safe_float`: an exact
real rational arrives as a real finite value; a non-real value carries
`is_real = False`; a value outside the rational fragment is modelled as
the raising path. -/
def nOfEval : EvalRes → NOutcome
  | EvalRes.real q => NOutcome.val ⟨some true, FloatRes.fin q⟩
  | EvalRes.nonReal => NOutcome.val ⟨some false, FloatRes.err⟩
  | EvalRes.failed => NOutcome.raises

/-- The input is a real, finite numeric value: exactly the case in which
`_to_safe_float` succeeds. -/
def safeOk : NOutcome → Bool
  | NOutcome.raises => false
  | NOutcome.val v =>
      if v.isReal = some false then false
      else
        match v.toFloat with
        | FloatRes.fin _ => true
        | _ => false

/-- The finite real value carried by a successful input (0 otherwise). -/
def safeVal : NOutcome → ℚ
  | NOutcome.raises => 0
  | NOutcome.val v =>
      match v.toFloat with
      | FloatRes.fin q => q
      | _ => 0

/-- Decimal digit as a one-character string. -/
def digitChar (n : Nat) : String :=
  String.singleton (Char.ofNat (48 + n % 10))

/-- Decimal rendering of a natural number (fuel-driven so that it
reduces definitionally). -/
def natDigitsStr : Nat → Nat → String
  | 0, _ => ""
  | fuel + 1, n =>
      if n < 10 then digitChar n
      else natDigitsStr fuel (n / 10) ++ digitChar (n % 10)

/-- Decimal rendering of a natural number. -/
def natStrN (n : Nat) : String := natDigitsStr (n + 1) n

/-- Decimal rendering of an integer. -/
def intStr (n : ℤ) : String :=
  if n < 0 then "-" ++ natStrN n.natAbs else natStrN n.natAbs

/-- SymPy-style rendering of a rational constant. -/
def ratStr (q : ℚ) : String :=
  if q.den = 1 then intStr q.num else intStr q.num ++ "/" ++ natStrN q.den

/-- Two-digit zero-padded rendering, for cents and exponents. -/
def pad2 (n : Nat) : String :=
  if n < 10 then "0" ++ natStrN n else natStrN n

/-- Python `f"{v:.2f}"`: fixed two-decimal rendering (sign kept even
when the magnitude rounds to zero, as Python does). -/
def formatFixed2 (q : ℚ) : String :=
  let n := (roundHalfEven (|q| * 100)).toNat
  let sgn := if q < 0 then "-" else ""
  sgn ++ natStrN (n / 100) ++ "." ++ pad2 (n % 100)

/-- Floor of the base-10 logarithm of a positive rational. -/
def sciExp (q : ℚ) : ℤ :=
  let e : ℤ := (Nat.log 10 q.num.natAbs : ℤ) - (Nat.log 10 q.den : ℤ)
  if (10 : ℚ) ^ e ≤ q then e else e - 1

/-- Exponent suffix of Python scientific notation (at least 2 digits). -/
def expStr (e : ℤ) : String :=
  (if e < 0 then "-" else "+") ++ pad2 e.natAbs

/-- Python `f"{v:.1e}"`: one-decimal scientific notation. -/
def formatSci1 (q : ℚ) : String :=
  if q = 0 then "0.0e+00"
  else
    let sgn := if q < 0 then "-" else ""
    let a := |q|
    let e := sciExp a
    let d := roundHalfEven (a / (10 : ℚ) ^ e * 10)
    let d2 := if 100 ≤ d then (10 : ℤ) else d
    let e2 := if 100 ≤ d then e + 1 else e
    sgn ++ natStrN (d2.toNat / 10) ++ "." ++ natStrN (d2.toNat % 10) ++ "e" ++ expStr e2

/-- Argument of `GeneradorGraficos._format_number`: either a value that
Python `float(...)` converts (floats, ints, numeric strings), carried as
its numeric value, or a value on which `float` raises
`ValueError`/`TypeError`, carried as its `str(...)` rendering. -/
inductive PyVal where
  | num (q : ℚ)
  | nonNum (s : String)

/-- `GeneradorGraficos._format_number` (graficos.py lines 16-24):
scientific notation when `abs(v) > 10000` or `0 ≠ v` and
`abs(v) < 0.0001`, otherwise fixed two decimals; non-convertible input
is stringified as-is. -/
def format_number : PyVal → String
  | PyVal.num q =>
      if |q| > 10000 ∨ (|q| < 1/10000 ∧ q ≠ 0) then formatSci1 q
      else formatFixed2 q
  | PyVal.nonNum s => s

/-- Loose model of the SymPy `str` printing of expressions (used only
inside display strings; no claim depends on its exact spelling). -/
def exprStr : Expresion → String
  | Expresion.const q => ratStr q
  | Expresion.var s => s
  | Expresion.add a b => exprStr a ++ " + " ++ exprStr b
  | Expresion.sub a b => exprStr a ++ " - " ++ exprStr b
  | Expresion.mul a b => exprStr a ++ "*" ++ exprStr b
  | Expresion.div a b => exprStr a ++ "/" ++ exprStr b
  | Expresion.powE a b => exprStr a ++ "**" ++ exprStr b
  | Expresion.log a => "log(" ++ exprStr a ++ ")"

/-- The SymPy `str` printing of a relational restriction. -/
def restrStr (r : Restriccion) : String :=
  match r.op with
  | RelOp.eq => "Eq(" ++ exprStr r.lhs ++ ", " ++ exprStr r.rhs ++ ")"
  | RelOp.ne => "Ne(" ++ exprStr r.lhs ++ ", " ++ exprStr r.rhs ++ ")"
  | RelOp.gt => exprStr r.lhs ++ " > " ++ exprStr r.rhs
  | RelOp.ge => exprStr r.lhs ++ " >= " ++ exprStr r.rhs
  | RelOp.lt => exprStr r.lhs ++ " < " ++ exprStr r.rhs
  | RelOp.le => exprStr r.lhs ++ " <= " ++ exprStr r.rhs

/-- The comparison dispatch of `_eval_relational` on `rel.rel_op`
(analizador.py lines 49-61). -/
def relHolds : RelOp → ℚ → ℚ → Bool
  | RelOp.eq, a, b => decide (a = b)
  | RelOp.ne, a, b => decide (a ≠ b)
  | RelOp.gt, a, b => decide (a > b)
  | RelOp.ge, a, b => decide (a ≥ b)
  | RelOp.lt, a, b => decide (a < b)
  | RelOp.le, a, b => decide (a ≤ b)

/-- `AnalizadorMatematico._eval_relational` (analizador.py lines 35-66):
substitute `v` for `x` in both sides, evaluate numerically; if either
side raises the exception text is reported (modelled by a fixed
message); if the sides are not both real the restriction counts as not
holding with the complex/undefined detail; otherwise compare. -/
def eval_relational (r : Restriccion) (v : ℚ) : Bool × Option String :=
  match evalQ r.lhs v, evalQ r.rhs v with
  | EvalRes.failed, _ => (false, some "Error interno al evaluar la restricción")
  | _, EvalRes.failed => (false, some "Error interno al evaluar la restricción")
  | EvalRes.real l, EvalRes.real rr => (relHolds r.op l rr, none)
  | _, _ => (false, some "Valor complejo o indefinido en la restricción")

/-- Violation description built by `check_dominio_punto`
(analizador.py lines 79-82). -/
def violationMsg (r : Restriccion) (err : Option String) : String :=
  match err with
  | some e => restrStr r ++ ": " ++ e
  | none => restrStr r

/-- The violation messages collected by the loop of
`check_dominio_punto` (analizador.py lines 75-82): every restriction
that does not hold contributes one message, in order. -/
def violMsgs (v : ℚ) (restricciones : List Restriccion) : List String :=
  restricciones.filterMap (fun r =>
    if (eval_relational r v).1 then none
    else some (violationMsg r (eval_relational r v).2))

/-- `AnalizadorMatematico.check_dominio_punto` (analizador.py lines
68-86): an empty restriction list means the point is in the domain;
otherwise the point is rejected, with the joined messages, exactly when
some restriction failed. -/
def check_dominio_punto (v : ℚ) (restricciones : List Restriccion) : Bool × Option String :=
  if restricciones = [] then (true, none)
  else
    if violMsgs v restricciones = [] then (true, none)
    else (false, some (String.intercalate "; " (violMsgs v restricciones)))

/-- Left-to-right non-overlapping substring replacement, modelling
Python `str.replace` (fuel-driven structural recursion). -/
def replFuel (pat rep : List Char) : Nat → List Char → List Char
  | 0, s => s
  | _ + 1, [] => []
  | fuel + 1, c :: rest =>
      if pat ≠ [] ∧ pat.isPrefixOf (c :: rest) then
        rep ++ replFuel pat rep fuel (List.drop (pat.length - 1) rest)
      else c :: replFuel pat rep fuel rest

/-- Python `s.replace(pat, rep)`. -/
def pyReplace (s pat rep : String) : String :=
  String.mk (replFuel pat.data rep.data s.data.length s.data)

/-- One `re.sub(r"(C1)(C2)", r"\1*\2", s)` pass: scan left to right,
insert `*` between any adjacent pair matching the two character
classes, consuming the matched pair (Python matches do not overlap). -/
def subPass (p1 p2 : Char → Bool) : List Char → List Char
  | [] => []
  | [c] => [c]
  | c1 :: c2 :: rest =>
      if p1 c1 ∧ p2 c2 then c1 :: '*' :: c2 :: subPass p1 p2 rest
      else c1 :: subPass p1 p2 (c2 :: rest)

/-- `AnalizadorMatematico.limpiar_expresion` (analizador.py lines
101-126): the ordered chain of `str.replace` synonym substitutions
followed by the five implicit-multiplication `re.sub` passes. -/
def limpiar_expresion (s : String) : String :=
  let t := pyReplace s "^" "**"
  let t := pyReplace t "ln" "log"
  let t := pyReplace t "sen" "sin"
  let t := pyReplace t "tg" "tan"
  let t := pyReplace t "ctg" "cot"
  let t := pyReplace t "sec" "sec"
  let t := pyReplace t "csc" "csc"
  let t := pyReplace t "arcsin" "asin"
  let t := pyReplace t "arccos" "acos"
  let t := pyReplace t "arctan" "atan"
  let t := pyReplace t "sqrt" "sqrt"
  let t := pyReplace t "abs" "Abs"
  let u := subPass (fun c => c.isDigit) (fun c => c.isAlpha ∨ c = '(') t.data
  let u := subPass (fun c => c.isAlpha ∨ c = ')') (fun c => c.isDigit) u
  let u := subPass (fun c => c = ')') (fun c => c = '(') u
  let u := subPass (fun c => c.isDigit) (fun c => c = '(') u
  let u := subPass (fun c => c = ')') (fun c => c.isAlpha) u
  String.mk u

/-- Substring containment over character lists (used to state that the
normalized output never mentions `cot`). -/
def containsSub : List Char → List Char → Bool
  | [], sub => decide (sub = [])
  | c :: rest, sub => sub.isPrefixOf (c :: rest) || containsSub rest sub


/-- Free-variable set of an expression (as a duplicate-free list). -/
def freeVars : Expresion → List String
  | Expresion.const _ => []
  | Expresion.var s => [s]
  | Expresion.add a b => (freeVars a).union (freeVars b)
  | Expresion.sub a b => (freeVars a).union (freeVars b)
  | Expresion.mul a b => (freeVars a).union (freeVars b)
  | Expresion.div a b => (freeVars a).union (freeVars b)
  | Expresion.powE a b => (freeVars a).union (freeVars b)
  | Expresion.log a => freeVars a

/-- `AnalizadorMatematico.validar_funcion` (analizador.py lines 88-99):
normalize the text, parse it with `sp.sympify` and simplify with
`sp.simplify` (both external CAS calls, passed here as functions whose
`none` result models a raised exception).  On success it returns
`(True, simplified expression, normalized text)`; on any exception it
returns `(False, None, error message)`.  No property of the parsed
expression itself — in particular its free-variable set — is ever
inspected. -/
def validar_funcion (sympifyF : String → Option Expresion)
    (simplifyF : Expresion → Option Expresion) (expresion : String) :
    Bool × Option Expresion × String :=
  let limpia := limpiar_expresion expresion
  match sympifyF limpia with
  | none => (false, none, "Error en la función")
  | some f =>
      match simplifyF f with
      | none => (false, none, "Error en la función")
      | some g => (true, some g, limpia)

/-- One root of `denominator = 0` as returned by `sp.solve`, together
with its `is_real` attribute (`False`/`None` collapsed to `false`,
since `if z.is_real:` treats both as falsy). -/
structure Cero where
  val : Expresion
  isReal : Bool
deriving DecidableEq

/-- One power sub-term found by `funcion.find(sp.Pow)`: its base and,
when the exponent `is_Rational`, the value of the exponent. -/
structure PowInfo where
  base : Expresion
  exp : Option ℚ
deriving DecidableEq

/-- CAS data consumed by `calcular_dominio` for a fixed input
expression: whether `sp.together(expr).as_numer_denom()` returned the
constant denominator 1; the outcome of `sp.solve(Eq(denom, 0), x)`
(`none` models a raised exception; the field is only consulted when the
denominator is not 1, exactly as in the source); the arguments of the
logarithm sub-terms found by `funcion.find(sp.log)`; and the power
sub-terms found by `funcion.find(sp.Pow)`. -/
structure DomCAS where
  denomIsOne : Bool
  ceros : Option (List Cero)
  logArgs : List Expresion
  pows : List PowInfo
deriving DecidableEq

/-- Restrictions contributed by logarithm sub-terms
(analizador.py lines 157-164): `argument > 0` for each. -/
def logRestrs (logArgs : List Expresion) : List Restriccion :=
  logArgs.map (fun a => ⟨a, RelOp.gt, Expresion.const 0⟩)

/-- The guard `exp.is_Rational and exp.q % 2 == 0` of analizador.py
line 170: the exponent is a rational with even denominator. -/
def powEvenDen : Option ℚ → Bool
  | some q => decide (q.den % 2 = 0)
  | none => false

/-- Restrictions contributed by power sub-terms (analizador.py lines
166-173): `base ≥ 0` when the exponent is rational with even
denominator. -/
def powRestrs (pows : List PowInfo) : List Restriccion :=
  pows.filterMap (fun p =>
    if powEvenDen p.exp then some ⟨p.base, RelOp.ge, Expresion.const 0⟩ else none)

/-- The fixed fallback summary of `calcular_dominio`
(analizador.py line 186). -/
def dominioFallback (err : String) : String :=
  "No se pudo calcular el dominio: " ++ err

/-- Summary built at analizador.py line 181: it enumerates ALL solved
denominator zeros (`ceros`), not the restriction list. -/
def dominioExcluyendo (cs : List Cero) : String :=
  "ℝ \\ \x7b " ++ String.intercalate ", " (cs.map (fun c => exprStr c.val)) ++ " \x7d"

/-- `AnalizadorMatematico.calcular_dominio` (analizador.py lines
128-186), returning `(summary, restriction list)` (the step trace is
not modelled).  Faithful details: the local variable `ceros` is
assigned only inside the `if denom != 1:` branch, yet line 181 reads it
whenever the restriction list is non-empty — so when the denominator is
1 and a logarithm or even-root contributed a restriction, the function
hits an `UnboundLocalError`, which the catch-all `except` turns into
the fallback summary with an EMPTY restriction list.  First the `x ≠ z`
restrictions of lines 150-155: one per real solved denominator zero. -/
def cerosRestrs (cs : List Cero) : List Restriccion :=
  (cs.filter (fun c => c.isReal)).map
    (fun c => ⟨Expresion.var "x", RelOp.ne, c.val⟩)

/-- `AnalizadorMatematico.calcular_dominio` continued: the assembled
branch structure of lines 135-186 (see `cerosRestrs` above for the
line-180 `UnboundLocalError` analysis). -/
def calcular_dominio (d : DomCAS) : String × List Restriccion :=
  if d.denomIsOne then
    if logRestrs d.logArgs ++ powRestrs d.pows = [] then ("ℝ", [])
    else (dominioFallback "UnboundLocalError: ceros", [])
  else
    match d.ceros with
    | none => (dominioFallback "error de solve", [])
    | some cs =>
        if cerosRestrs cs ++ logRestrs d.logArgs ++ powRestrs d.pows = [] then ("ℝ", [])
        else (dominioExcluyendo cs,
          cerosRestrs cs ++ logRestrs d.logArgs ++ powRestrs d.pows)

/-- One solution branch of `sp.solve(Eq(expr, y), x)` as consumed by
`calcular_recorrido`: whether `s.as_numer_denom()[1]` is the constant 1
and, when it is not, the real/complex roots in `y` of that denominator
returned by `sp.solve(Eq(denom, 0), y)`. -/
structure SolInfo where
  denomIsOne : Bool
  yDenomZeros : List Cero
deriving DecidableEq

/-- CAS data consumed by `calcular_recorrido` for a fixed input
expression: whether the outer `sp.simplify` raised; the outcome of the
inner `try` block up to the solve (`none` models any exception in
analizador.py lines 200-245, which ends in the `"ℝ (estimado, …)"`
fallback); whether `expr.as_numer_denom()` yields two polynomials in
`x`; and their `sp.degree` values. -/
structure RecCAS where
  outerRaise : Bool
  solveResult : Option (List SolInfo)
  numDenPoly : Bool
  gradoNum : ℤ
  gradoDen : ℤ
deriving DecidableEq

/-- The `y ≠ value` exclusion strings collected at analizador.py lines
205-212: for each solution branch whose denominator is not 1, every
real root of that denominator in `y`. -/
def yRestr (sols : List SolInfo) : List String :=
  (sols.map (fun s =>
    if s.denomIsOne then []
    else (s.yDenomZeros.filter (fun c => c.isReal)).map
      (fun c => "y ≠ " ++ exprStr c.val))).flatten

/-- The zeros re-solved at analizador.py line 237: `denoms` holds the
denominator of the LAST solution branch (assigned on every loop
iteration), so the summary set comes from that branch alone. -/
def lastDenZeros (sols : List SolInfo) : List Cero :=
  match sols.getLast? with
  | none => []
  | some s => if s.denomIsOne then [] else s.yDenomZeros

/-- `AnalizadorMatematico.calcular_recorrido` (analizador.py lines
188-253), returning the summary string (the step trace is not
modelled).  The domain-verification loop of lines 216-228 only appends
trace lines — `dominio_violado` is never used for the summary — so it
does not appear here.  There is no polynomial-parity/extremum branch in
the source: the summary depends only on the `y ≠ …` exclusions and the
linear-rational special case. -/
def calcular_recorrido (rc : RecCAS) : String :=
  if rc.outerRaise then "No se pudo calcular el recorrido"
  else
    match rc.solveResult with
    | none => "ℝ (estimado, no se pudo determinar algebraicamente)"
    | some sols =>
        if rc.numDenPoly = true ∧ rc.gradoNum ≤ 1 ∧ rc.gradoDen ≤ 1 then
          if yRestr sols = [] then "ℝ"
          else
            "ℝ \\ \x7b " ++
              String.intercalate ", "
                (((lastDenZeros sols).filter (fun c => c.isReal)).map
                  (fun c => exprStr c.val)) ++ " \x7d"
        else
          if yRestr sols = [] then "ℝ"
          else "Todos los reales salvo " ++ String.intercalate ", " (yRestr sols)

/-- Rendering of a Python float that is an exact multiple of 1/10000
(every value `_to_safe_float(…, 4)` produces), modelling `str(float)`:
integer part, decimal point, fractional digits with trailing zeros
removed but at least one digit kept. -/
def fracTrim4 (fp : Nat) : String :=
  if fp = 0 then "0"
  else
    let ds := [fp / 1000 % 10, fp / 100 % 10, fp / 10 % 10, fp % 10]
    let trimmed := (ds.reverse.dropWhile (fun d => d = 0)).reverse
    String.join (trimmed.map digitChar)

/-- Python `str` of a float value (exact at four decimals). -/
def floatStr (q : ℚ) : String :=
  if (q * 10000).den = 1 then
    let n := (q * 10000).num
    let sgn := if n < 0 then "-" else ""
    let m := n.natAbs
    sgn ++ natStrN (m / 10000) ++ "." ++ fracTrim4 (m % 10000)
  else ratStr q

/-- The value `f(0)` handed to the y-intercept step: the data for the
`_to_safe_float` call on it, and its `str` rendering used when the
conversion yields no float (analizador.py line 269 falls back to
printing the symbolic value, NOT to the "No definida" message). -/
structure SubsInfo where
  nOut : NOutcome
  y0Str : String
deriving DecidableEq

/-- One solution of `f(x) = 0` as consumed by the x-intercept step:
its `is_real` attribute, the `_to_safe_float` data for it, and its
`str` rendering used when the conversion yields no float. -/
structure RootInfo where
  isReal : Bool
  nOut : NOutcome
  sStr : String
deriving DecidableEq

/-- CAS data consumed by `calcular_intersecciones` for a fixed input
expression: whether the outer `sp.simplify` raised; the outcome of
`expr.subs(x, 0)` (`none` models a raised exception, the only path to
the "No definida en x=0" report); and the outcome of
`sp.solve(Eq(expr, 0), x)` (`none` models a raised exception). -/
structure InterCAS where
  outerRaise : Bool
  subsAt0 : Option SubsInfo
  solveRoots : Option (List RootInfo)
deriving DecidableEq

/-- Y-intercept line of `calcular_intersecciones` (analizador.py lines
265-273). -/
def interY (d : InterCAS) : String :=
  match d.subsAt0 with
  | none => "No definida en x=0"
  | some si =>
      match (to_safe_float si.nOut 4).1 with
      | some q => "(0, " ++ floatStr q ++ ")"
      | none => "(0, " ++ si.y0Str ++ ")"

/-- X-intercept line of `calcular_intersecciones` (analizador.py lines
275-290): keep the solutions whose `is_real` holds, display each via
`_to_safe_float` (falling back to the symbolic rendering), and report
the no-real-intersections message when the kept list is empty. -/
def realesStrs (rts : List RootInfo) : List String :=
  rts.filterMap (fun r =>
    if r.isReal then
      some ("(" ++ (match (to_safe_float r.nOut 4).1 with
                    | some q => floatStr q
                    | none => r.sStr) ++ ", 0)")
    else none)

/-- `calcular_intersecciones` continued: the x-intercept report of
lines 276-290. -/
def interX (d : InterCAS) : String :=
  match d.solveRoots with
  | none => "No se pudieron determinar las intersecciones con el eje X."
  | some rts =>
      if realesStrs rts = [] then "No hay intersecciones reales con el eje X."
      else String.intercalate ", " (realesStrs rts)

/-- `AnalizadorMatematico.calcular_intersecciones` (analizador.py lines
255-296), returning the summary string (the step trace is not
modelled).  The y-intercept and x-intercept steps sit in independent
`try` blocks, so a failure in one leaves the other intact. -/
def calcular_intersecciones (d : InterCAS) : String :=
  if d.outerRaise then "Error al calcular intersecciones"
  else
    "Intersección con el eje Y: " ++ interY d ++ "\n" ++
      "Intersecciones con el eje X: " ++ interX d

/-- CAS data of `calcular_dominio` for the input `log(x + 1)`:
`sp.together` leaves it with denominator 1 (so `sp.solve` on the
denominator is never run and the local `ceros` is never assigned),
`funcion.find(sp.log)` yields the single logarithm with argument
`x + 1`, and `funcion.find(sp.Pow)` yields nothing. -/
def dLog : DomCAS :=
  ⟨true, none, [Expresion.add (Expresion.var "x") (Expresion.const 1)], []⟩

/-- CAS data of `calcular_dominio` for the input `(x+1)/(x-2)`:
denominator `x - 2` is not 1 and `sp.solve(Eq(x - 2, 0), x) = [2]`
with `2` real; no logarithms; no even-root powers. -/
def dRacional : DomCAS :=
  ⟨false, some [⟨Expresion.const 2, true⟩], [], []⟩

/-- CAS data of `calcular_dominio` for the input `sqrt(x)`:
denominator 1, no logarithms, and `find(sp.Pow)` yields `x**(1/2)`
whose exponent is rational with even denominator. -/
def dSqrt : DomCAS :=
  ⟨true, none, [], [⟨Expresion.var "x", some (1/2)⟩]⟩

/-- CAS data of `calcular_recorrido` for the input `x**2 - 4`:
`sp.solve(Eq(x**2 - 4, y), x) = [-sqrt(y + 4), sqrt(y + 4)]`, both
branches with denominator 1; `expr.as_numer_denom()` gives the
polynomials `x**2 - 4` and `1`, of degrees 2 and 0. -/
def recParab : RecCAS :=
  ⟨false, some [⟨true, []⟩, ⟨true, []⟩], true, 2, 0⟩

/-- CAS data of `calcular_intersecciones` for the input `1/x`:
`expr.subs(x, 0)` does not raise — it returns SymPy `zoo` (complex
infinity, printed `zoo`, with `is_real = False`, on which `float`
raises) — and `sp.solve(Eq(1/x, 0), x) = []`. -/
def interRecip : InterCAS :=
  ⟨false, some ⟨NOutcome.val ⟨some false, FloatRes.err⟩, "zoo"⟩, some []⟩

/-- CAS data of `calcular_intersecciones` for an input on which
`expr.subs(x, 0)` raises (the only way into the `except`
branch at line 271), with an empty real x-intercept set. -/
def interNone : InterCAS := ⟨false, none, some []⟩

/-- The expression `1000000000*x - 1`. -/
def eSteep : Expresion :=
  Expresion.sub
    (Expresion.mul (Expresion.const 1000000000) (Expresion.var "x"))
    (Expresion.const 1)

/-- CAS data of `calcular_intersecciones` for `1000000000*x - 1`:
`f(0) = -1`, and `sp.solve` finds the single real root
`1/1000000000`. -/
def interSteep : InterCAS :=
  ⟨false,
   some ⟨NOutcome.val ⟨some true, FloatRes.fin (-1)⟩, "-1"⟩,
   some [⟨true, NOutcome.val ⟨some true, FloatRes.fin (1/1000000000)⟩,
          "1/1000000000"⟩]⟩

/-- The expression `x**2 - 4`. -/
def eParab : Expresion :=
  Expresion.sub (Expresion.powE (Expresion.var "x") (Expresion.const 2))
    (Expresion.const 4)

/-- The expression `y + 1`. -/
def eYmas1 : Expresion := Expresion.add (Expresion.var "y") (Expresion.const 1)

/-- A parser instance for `validar_funcion` (modelling `sp.sympify`)
that parses exactly the text `y + 1` to the expression `y + 1`. -/
def sympifyEj : String → Option Expresion :=
  fun s => if s = "y + 1" then some eYmas1 else none

/-- Auxiliary: if every solution branch has denominator 1 there are no
`y ≠ …` exclusions. -/
theorem yRestr_eq_nil (sols : List SolInfo)
    (h : ∀ s ∈ sols, s.denomIsOne = true) : yRestr sols = [] := by
  induction sols with
  | nil => rfl
  | cons s ss ih =>
      have hs := h s (List.mem_cons_self s ss)
      have ihs := ih (fun t ht => h t (List.mem_cons_of_mem s ht))
      simp only [yRestr, List.map_cons, List.flatten_cons, hs, if_true] at *
      simpa [yRestr] using ihs

/-- Auxiliary: a point fails `check_dominio_punto` exactly when at
least one restriction of the list evaluates as not holding. -/
theorem check_dominio_punto_false_iff (v : ℚ) (rs : List Restriccion) :
    (check_dominio_punto v rs).1 = false ↔
      ∃ r ∈ rs, (eval_relational r v).1 = false := by
  by_cases h : rs = []
  · subst h
    simp [check_dominio_punto]
  · rw [check_dominio_punto, if_neg h]
    by_cases hm : violMsgs v rs = []
    · rw [if_pos hm]
      constructor
      · intro hc
        exact absurd hc (by simp)
      · rintro ⟨r, hr, hf⟩
        exfalso
        have hm2 : ∀ a ∈ rs, (eval_relational a v).1 = true := by
          simpa [violMsgs] using hm
        rw [hm2 r hr] at hf
        exact absurd hf (by simp)
    · rw [if_neg hm]
      have hex : ∃ r ∈ rs, (eval_relational r v).1 = false := by
        by_contra hno
        push_neg at hno
        apply hm
        simp only [violMsgs, List.filterMap_eq_nil_iff]
        intro r hr
        have h2 := hno r hr
        have h3 : (eval_relational r v).1 = true := by
          cases hb : (eval_relational r v).1
          · exact absurd hb h2
          · rfl
        simp [h3]
      exact ⟨fun _ => hex, fun _ => rfl⟩

/-- Auxiliary: shape of the restrictions contributed by logarithms. -/
theorem mem_logRestrs (r : Restriccion) (args : List Expresion)
    (h : r ∈ logRestrs args) :
    r.op = RelOp.gt ∧ r.rhs = Expresion.const 0 ∧ r.lhs ∈ args := by
  simp only [logRestrs, List.mem_map] at h
  obtain ⟨a, ha, rfl⟩ := h
  exact ⟨rfl, rfl, ha⟩

/-- Auxiliary: shape of the restrictions contributed by even-root
powers. -/
theorem mem_powRestrs (r : Restriccion) (pows : List PowInfo)
    (h : r ∈ powRestrs pows) :
    r.op = RelOp.ge ∧ r.rhs = Expresion.const 0 ∧ ∃ p ∈ pows, r.lhs = p.base := by
  simp only [powRestrs, List.mem_filterMap] at h
  obtain ⟨p, hp, he⟩ := h
  by_cases hd : powEvenDen p.exp = true
  · rw [if_pos hd] at he
    cases he
    exact ⟨rfl, rfl, p, hp, rfl⟩
  · rw [if_neg hd] at he
    exact absurd he (by simp)

/-- Auxiliary: shape of the restrictions contributed by denominator
zeros. -/
theorem mem_cerosRestrs (r : Restriccion) (cs : List Cero)
    (h : r ∈ cerosRestrs cs) :
    r.op = RelOp.ne ∧ r.lhs = Expresion.var "x" ∧
      ∃ c ∈ cs, c.isReal = true ∧ r.rhs = c.val := by
  simp only [cerosRestrs, List.mem_map, List.mem_filter] at h
  obtain ⟨c, ⟨hc, hreal⟩, rfl⟩ := h
  exact ⟨rfl, rfl, c, hc, hreal, rfl⟩

/-- C1: `calcular_dominio` on `log(x + 1)` does NOT return the domain
`x > -1` with the restriction `x + 1 > 0`: because the denominator is
1, the local variable `ceros` is never assigned, line 180 raises
`UnboundLocalError`, and the `except` branch returns the
could-not-compute fallback with an EMPTY restriction list — so
`check_dominio_punto` at `x = -2` reports no domain violation. -/
theorem c1_log_domain_fallback_bug :
    calcular_dominio dLog = (dominioFallback "UnboundLocalError: ceros", []) ∧
    check_dominio_punto (-2) (calcular_dominio dLog).2 = (true, none) := by
  constructor <;> decide

/-- C2: the point-evaluation pipeline flags a domain violation
(`check_dominio_punto` returns `False`) iff the x-value fails at least
one restriction of the list `calcular_dominio` returned for the same
expression; and a restriction whose comparison operands are not both
real evaluates as violated with the complex-or-undefined detail. -/
theorem c2_domain_violation_iff (d : DomCAS) (v : ℚ) :
    ((check_dominio_punto v (calcular_dominio d).2).1 = false ↔
      ∃ r ∈ (calcular_dominio d).2, (eval_relational r v).1 = false) ∧
    (∀ r : Restriccion, evalQ r.lhs v ≠ EvalRes.failed →
      evalQ r.rhs v ≠ EvalRes.failed →
      (evalQ r.lhs v = EvalRes.nonReal ∨ evalQ r.rhs v = EvalRes.nonReal) →
      eval_relational r v =
        (false, some "Valor complejo o indefinido en la restricción")) := by
  constructor
  · exact check_dominio_punto_false_iff v _
  · intro r h1 h2 h3
    cases e1 : evalQ r.lhs v <;> cases e2 : evalQ r.rhs v <;>
      simp_all [eval_relational]

/-- C2 witness: for `(x+1)/(x-2)` the point `x = 2` violates the
returned restriction `x ≠ 2`; and the restriction `log(x) > 0`
evaluated at `x = -1` has a non-real left operand, yielding the
complex-or-undefined detail. -/
theorem c2_domain_violation_iff_witness :
    (check_dominio_punto 2 (calcular_dominio dRacional).2).1 = false ∧
    eval_relational
        ⟨Expresion.log (Expresion.var "x"), RelOp.gt, Expresion.const 0⟩ (-1) =
      (false, some "Valor complejo o indefinido en la restricción") := by
  constructor
  · exact (c2_domain_violation_iff dRacional 2).1.mpr
      ⟨⟨Expresion.var "x", RelOp.ne, Expresion.const 2⟩, by decide, by decide⟩
  · exact (c2_domain_violation_iff dRacional (-1)).2
      ⟨Expresion.log (Expresion.var "x"), RelOp.gt, Expresion.const 0⟩
      (by decide) (by decide) (by decide)

/-- C3 counterexample: the text `y + 1` parses and simplifies, so
`validar_funcion` returns `isValid = true` and hands back the
expression, although its free-variable set is `{y}`, not `{x}` — the
validator never inspects free variables. -/
theorem c3_validator_counterexample :
    (validar_funcion sympifyEj some "y + 1").1 = true ∧
    (validar_funcion sympifyEj some "y + 1").2.1 = some eYmas1 ∧
    freeVars eYmas1 = ["y"] ∧ (["y"] : List String) ≠ ["x"] := by
  refine ⟨?_, ?_, ?_, ?_⟩ <;> decide

/-- C3 amended: `validar_funcion` returns `isValid = true` exactly when
normalization, parsing (`sp.sympify`) and simplification
(`sp.simplify`) succeed; it performs no free-variable check, so any
parsable expression is accepted regardless of its variables. -/
theorem c3_validator_no_freevar_check (sympifyF : String → Option Expresion)
    (simplifyF : Expresion → Option Expresion) (s : String) :
    (validar_funcion sympifyF simplifyF s).1 = true ↔
      ∃ f g, sympifyF (limpiar_expresion s) = some f ∧ simplifyF f = some g := by
  cases h1 : sympifyF (limpiar_expresion s) with
  | none => simp [validar_funcion, h1]
  | some f =>
      cases h2 : simplifyF f with
      | none => simp [validar_funcion, h1, h2]
      | some g => simp [validar_funcion, h1, h2]

/-- C4 counterexample: on the CAS data of `x**2 - 4` (solve succeeds,
both inverse branches have denominator 1, numerator degree 2),
`calcular_recorrido` returns the all-reals summary `ℝ`, not the
interval `[-4.00, ∞)` the claim requires for an even-degree polynomial
with positive leading coefficient. -/
theorem c4_recorrido_counterexample :
    calcular_recorrido recParab = "ℝ" ∧
    calcular_recorrido recParab ≠ "[-4.00, ∞)" := by
  constructor <;> decide

/-- C4 amended: `calcular_recorrido` has no polynomial-parity/extremum
branch: whenever the outer simplify does not raise, `solve(y = f(x))`
succeeds, and no solution branch has a `y`-denominator (so there are no
`y ≠ …` exclusions — the case of every polynomial), the summary is
`ℝ`, whatever the degrees are. -/
theorem c4_recorrido_all_reals (rc : RecCAS) (sols : List SolInfo)
    (h1 : rc.outerRaise = false) (h2 : rc.solveResult = some sols)
    (h3 : ∀ s ∈ sols, s.denomIsOne = true) :
    calcular_recorrido rc = "ℝ" := by
  have hry := yRestr_eq_nil sols h3
  simp [calcular_recorrido, h1, h2, hry]

/-- C4 witness: the amended statement applied to the `x**2 - 4` data. -/
theorem c4_recorrido_all_reals_witness : calcular_recorrido recParab = "ℝ" :=
  c4_recorrido_all_reals recParab [⟨true, []⟩, ⟨true, []⟩] rfl rfl (by decide)

/-- C5: `_to_safe_float` is total (the `try/except` of lines 24-33
catches everything) and returns a rounded decimal with no failure
message exactly when the numeric evaluation is a real, finite value;
in every other case it returns no value and a failure message
(complex, non-finite, or conversion error). -/
theorem c5_to_safe_float_total (x : NOutcome) (d : Nat) :
    (safeOk x = true → to_safe_float x d = (some (roundTo (safeVal x) d), none)) ∧
    (safeOk x = false →
      (to_safe_float x d).1 = none ∧ (to_safe_float x d).2.isSome = true) := by
  cases x with
  | raises => simp [safeOk, to_safe_float]
  | val v =>
      cases v with
      | mk ir tf =>
          cases tf <;> by_cases hir : ir = some false <;>
            simp [safeOk, safeVal, to_safe_float, hir]

/-- C5 witness: a real finite value (5/2) converts to its rounding; the
raising path yields no value and a failure message. -/
theorem c5_to_safe_float_total_witness :
    to_safe_float (NOutcome.val ⟨some true, FloatRes.fin (5/2)⟩) 4 =
      (some (roundTo (5/2) 4), none) ∧
    ((to_safe_float NOutcome.raises 4).1 = none ∧
      (to_safe_float NOutcome.raises 4).2.isSome = true) :=
  ⟨(c5_to_safe_float_total (NOutcome.val ⟨some true, FloatRes.fin (5/2)⟩) 4).1
      (by decide),
   (c5_to_safe_float_total NOutcome.raises 4).2 (by decide)⟩

unseal Rat.add Rat.mul Rat.inv Rat.sub in
/-- C6: `_format_number` picks scientific notation exactly on
`|v| > 10000` or `0 < |v| < 0.0001`, fixed two-decimal notation
otherwise — including the boundary values 10000 and 0.0001 and the
value 0 — and passes non-convertible input through as its string; being
a function, it is deterministic and total (the `except` of line 23
covers the conversion failures). -/
theorem c6_format_number_branches :
    (∀ q : ℚ, (|q| > 10000 ∨ (|q| < 1/10000 ∧ q ≠ 0)) →
      format_number (PyVal.num q) = formatSci1 q) ∧
    (∀ q : ℚ, ¬(|q| > 10000 ∨ (|q| < 1/10000 ∧ q ≠ 0)) →
      format_number (PyVal.num q) = formatFixed2 q) ∧
    (∀ s : String, format_number (PyVal.nonNum s) = s) ∧
    format_number (PyVal.num 10000) = formatFixed2 10000 ∧
    format_number (PyVal.num (1/10000)) = formatFixed2 (1/10000) ∧
    format_number (PyVal.num 0) = formatFixed2 0 := by
  refine ⟨?_, ?_, ?_, ?_, ?_, ?_⟩
  · intro q h
    simp only [format_number]
    rw [if_pos h]
  · intro q h
    simp only [format_number]
    rw [if_neg h]
  · intro s
    rfl
  · decide
  · decide
  · decide

/-- C6 witness: the scientific branch at 20000 and the fixed branch
at 5, via the theorem. -/
theorem c6_format_number_branches_witness :
    format_number (PyVal.num 20000) = formatSci1 20000 ∧
    format_number (PyVal.num 5) = formatFixed2 5 :=
  ⟨c6_format_number_branches.1 20000 (by norm_num),
   c6_format_number_branches.2.1 5 (by norm_num)⟩

/-- C7 counterexample: for `1/x`, substituting `x = 0` yields SymPy
`zoo` without raising; `_to_safe_float` fails on it, and line 269 then
prints the SYMBOLIC value — `(0, zoo)` — instead of the
"No definida en x=0" report the claim requires; the x-intercept part
still completes with the no-real-intersections message. -/
theorem c7_intersections_counterexample :
    interY interRecip = "(0, zoo)" ∧
    interY interRecip ≠ "No definida en x=0" ∧
    interX interRecip = "No hay intersecciones reales con el eje X." := by
  refine ⟨?_, ?_, ?_⟩ <;> decide

/-- C7 amended: the "No definida en x=0" report appears exactly when
`expr.subs(x, 0)` raises; when substitution succeeds but
`_to_safe_float` yields no float, the y-intercept line shows the
symbolic value instead; and the x-intercept report is assembled
independently, so the whole call still completes. -/
theorem c7_intersections_y_fallback (d : InterCAS) (h : d.outerRaise = false) :
    (d.subsAt0 = none → interY d = "No definida en x=0") ∧
    (∀ si : SubsInfo, d.subsAt0 = some si → (to_safe_float si.nOut 4).1 = none →
      interY d = "(0, " ++ si.y0Str ++ ")") ∧
    calcular_intersecciones d =
      "Intersección con el eje Y: " ++ interY d ++ "\n" ++
        "Intersecciones con el eje X: " ++ interX d := by
  refine ⟨?_, ?_, ?_⟩
  · intro hn
    unfold interY
    rw [hn]
  · intro si hs hf
    unfold interY
    rw [hs]
    simp [hf]
  · unfold calcular_intersecciones
    rw [h]
    simp

/-- C7 witness: the raising path reports "No definida en x=0"; the
conversion-failure path on `1/x` shows the symbolic value. -/
theorem c7_intersections_y_fallback_witness :
    interY interNone = "No definida en x=0" ∧
    interY interRecip = "(0, " ++ "zoo" ++ ")" :=
  ⟨(c7_intersections_y_fallback interNone rfl).1 rfl,
   (c7_intersections_y_fallback interRecip rfl).2.1
      ⟨NOutcome.val ⟨some false, FloatRes.err⟩, "zoo"⟩ rfl (by decide)⟩

unseal Rat.add Rat.mul Rat.inv Rat.sub in
/-- C8 counterexample: for `1000000000*x - 1` the pipeline rounds the
real root `1/1000000000` to 4 decimals, displaying the x-intercept
`(0.0, 0)`; substituting the displayed intercept `0` back into the
expression gives `-1`, whose `_to_safe_float` value `-1` is far outside
any rounding tolerance of 0 (here 1/20000, half an ulp of the 4-decimal
rounding). -/
theorem c8_root_substitution_counterexample :
    interX interSteep = "(0.0, 0)" ∧
    roundTo (1/1000000000) 4 = 0 ∧
    evalQ eSteep 0 = EvalRes.real (-1) ∧
    (to_safe_float (nOfEval (evalQ eSteep 0)) 4).1 = some (-1) ∧
    ¬(|(-1 : ℚ)| ≤ 1/20000) := by
  refine ⟨?_, ?_, ?_, ?_, ?_⟩ <;> decide

unseal Rat.add Rat.mul Rat.inv Rat.sub in
/-- C8 amended: substituting the EXACT x-intercept (the real solution
of `expr = 0` before display rounding) back into the expression gives a
value whose `_to_safe_float` conversion is exactly `(0, no error)`;
only the rounded display value can fail the round-trip. -/
theorem c8_root_substitution (e : Expresion) (s : ℚ)
    (h : evalQ e s = EvalRes.real 0) :
    to_safe_float (nOfEval (evalQ e s)) 4 = (some 0, none) := by
  rw [h]
  decide

unseal Rat.add Rat.mul Rat.inv Rat.sub in
/-- C8 witness: the amended statement at the root `x = 2` of
`x**2 - 4`. -/
theorem c8_root_substitution_witness :
    evalQ eParab 2 = EvalRes.real 0 ∧
    to_safe_float (nOfEval (evalQ eParab 2)) 4 = (some 0, none) :=
  ⟨by decide, c8_root_substitution eParab 2 (by decide)⟩

/-- C9: `limpiar_expresion` does NOT map `ctg` to `cot`: the earlier
`tg → tan` replacement (line 109) fires inside `ctg`, producing
`ctan(x)`, so the `ctg → cot` replacement of line 110 is dead code and
the output never mentions `cot`. -/
theorem c9_ctg_normalization_bug :
    limpiar_expresion "ctg(x)" = "ctan(x)" ∧
    containsSub ("ctan(x)".data) ("cot".data) = false := by
  constructor <;> decide

/-- C10: every restriction returned by `calcular_dominio` has one of
exactly three shapes — `x ≠ c` with `c` a real denominator zero,
`(log argument) > 0`, or `(even-root base) ≥ 0` — so the comparison is
always `≠`, `>`, or `≥`; and on either exception path (the solve
failure, or the line-180 `UnboundLocalError` when the denominator is 1
but log/root restrictions exist) the returned list is empty. -/
theorem c10_restriction_shapes (d : DomCAS) :
    (∀ r ∈ (calcular_dominio d).2,
      (r.op = RelOp.ne ∧ r.lhs = Expresion.var "x" ∧
        ∃ c ∈ d.ceros.getD [], c.isReal = true ∧ r.rhs = c.val) ∨
      (r.op = RelOp.gt ∧ r.rhs = Expresion.const 0 ∧ r.lhs ∈ d.logArgs) ∨
      (r.op = RelOp.ge ∧ r.rhs = Expresion.const 0 ∧
        ∃ p ∈ d.pows, r.lhs = p.base)) ∧
    (d.denomIsOne = true → logRestrs d.logArgs ++ powRestrs d.pows ≠ [] →
      (calcular_dominio d).2 = []) ∧
    (d.denomIsOne = false → d.ceros = none → (calcular_dominio d).2 = []) := by
  refine ⟨?_, ?_, ?_⟩
  · intro r hr
    rw [calcular_dominio] at hr
    split at hr
    · split at hr
      · exact absurd hr (by simp)
      · exact absurd hr (by simp)
    · split at hr
      · exact absurd hr (by simp)
      · rename_i cs hc
        split at hr
        · exact absurd hr (by simp)
        · simp only [List.mem_append] at hr
          rcases hr with (hr | hr) | hr
          · obtain ⟨h1, h2, c, hcm, h3, h4⟩ := mem_cerosRestrs r cs hr
            exact Or.inl ⟨h1, h2, c, by rw [hc]; simpa using hcm, h3, h4⟩
          · obtain ⟨h1, h2, h3⟩ := mem_logRestrs r d.logArgs hr
            exact Or.inr (Or.inl ⟨h1, h2, h3⟩)
          · obtain ⟨h1, h2, h3⟩ := mem_powRestrs r d.pows hr
            exact Or.inr (Or.inr ⟨h1, h2, h3⟩)
  · intro h1 h2
    simp [calcular_dominio, h1, h2]
  · intro h1 h2
    simp [calcular_dominio, h1, h2]

unseal Rat.add Rat.mul Rat.inv Rat.sub in
/-- C10 witness: on the `sqrt(x)` data the denominator is 1 and the
even-root restriction is non-empty, so the exception path returns the
empty restriction list. -/
theorem c10_restriction_shapes_witness : (calcular_dominio dSqrt).2 = [] :=
  (c10_restriction_shapes dSqrt).2.1 rfl (by decide)
